import Mathlib

/- Formal model of the GitHub PR reporting script (src/report.py).

   Pure functions of the script are translated to Lean functions; the
   network is modelled explicitly: `make_api_request` takes the server as a
   function from the attempt index to the HTTP response it returns, and the
   enrichment pipeline takes a `Server` mapping request URLs to the final
   outcome of `make_api_request` for that URL (`none` = failure after the
   retry budget, `some` = a 200 response body, already decoded). -/

namespace Report

/-! ## Request executor (make_api_request) -/

structure HttpResponse where
  status : Nat
  body : String
  deriving DecidableEq

/-- Wait time in seconds between API calls to avoid rate limits. -/
def DEFAULT_WAIT_TIME : Nat := 2

/-- Extended wait time for handling rate limit errors. -/
def EXTENDED_WAIT_TIME : Nat := 60

/-- Maximum number of retries for a single request. -/
def MAX_RETRIES : Nat := 5

/-- Python `s.lower()` (character-wise, over the code points of `s`). -/
def pyLower (s : String) : String :=
  String.mk (s.toList.map Char.toLower)

/-- Python `s.endswith(post)`. -/
def pyEndsWith (s post : String) : Bool :=
  post.toList.isSuffixOf s.toList

def isInfixList (pat : List Char) : List Char → Bool
  | [] => pat.isEmpty
  | c :: cs => pat.isPrefixOf (c :: cs) || isInfixList pat cs

/-- Python substring test `pat in s`. -/
def containsSubstring (s pat : String) : Bool :=
  isInfixList pat.toList s.toList

/-- Python `s.split(sep)` for a non-empty `sep`, by one left-to-right scan;
    the fuel argument starts at `s.length` and bounds the recursion. -/
def splitOnListAux (sep : List Char) : Nat → List Char → List Char → List (List Char)
  | 0, s, acc => [acc.reverse ++ s]
  | fuel + 1, s, acc =>
      match s with
      | [] => [acc.reverse]
      | c :: cs =>
          if sep.isPrefixOf (c :: cs) then
            acc.reverse :: splitOnListAux sep fuel (cs.drop (sep.length - 1)) []
          else
            splitOnListAux sep fuel cs (c :: acc)

def pySplit (s sep : String) : List String :=
  if sep.toList.isEmpty then [s]
  else (splitOnListAux sep.toList s.toList.length s.toList []).map String.mk

/-- The 403-branch test: `"secondary rate limit" in response.text.lower()`. -/
def isSecondaryRateLimit (body : String) : Bool :=
  containsSubstring (pyLower body) "secondary rate limit"

/-- The `while retries < MAX_RETRIES` loop of `make_api_request`.
    `server k` is the response the server gives to the k-th HTTP attempt
    (0-indexed); the result pairs the returned value with the total number
    of HTTP attempts issued. -/
def make_api_request_loop (server : Nat → HttpResponse) (retries attempts : Nat) :
    Option HttpResponse × Nat :=
  if h : retries < MAX_RETRIES then
    let response := server attempts
    if response.status = 200 then
      (some response, attempts + 1)
    else if response.status = 403 && isSecondaryRateLimit response.body then
      make_api_request_loop server (retries + 1) (attempts + 1)
    else if retries < MAX_RETRIES - 1 then
      make_api_request_loop server (retries + 1) (attempts + 1)
    else
      (none, attempts + 1)
  else
    (none, attempts)
termination_by MAX_RETRIES - retries
decreasing_by
  all_goals omega

/-- `make_api_request(url)`: run the retry loop from a fresh state. -/
def make_api_request (server : Nat → HttpResponse) : Option HttpResponse × Nat :=
  make_api_request_loop server 0 0

/-! ## Timestamps

`datetime.strptime(s, "%Y-%m-%dT%H:%M:%SZ")` yields a naive proleptic
Gregorian datetime; differences of two such values are exact whole seconds.
`toOrdinal` is Python's `datetime.toordinal` (0001-01-01 is day 1). -/

structure Timestamp where
  year : Nat
  month : Nat
  day : Nat
  hour : Nat
  minute : Nat
  second : Nat
  deriving DecidableEq

def isLeapYear (y : Nat) : Bool :=
  y % 4 == 0 && (y % 100 != 0 || y % 400 == 0)

def daysBeforeYear (y : Nat) : Nat :=
  365 * (y - 1) + (y - 1) / 4 - (y - 1) / 100 + (y - 1) / 400

def daysBeforeMonth (y m : Nat) : Nat :=
  [0, 31, 59, 90, 120, 151, 181, 212, 243, 273, 304, 334].getD (m - 1) 0
    + (if 2 < m && isLeapYear y then 1 else 0)

def dateToOrdinal (y m d : Nat) : Nat :=
  daysBeforeYear y + daysBeforeMonth y m + d

def Timestamp.toOrdinal (t : Timestamp) : Nat :=
  dateToOrdinal t.year t.month t.day

/-- Seconds elapsed from 0001-01-01T00:00:00 to the instant `t`. -/
def Timestamp.toSeconds (t : Timestamp) : Nat :=
  86400 * t.toOrdinal + 3600 * t.hour + 60 * t.minute + t.second

/-! ## Data model of the API payloads -/

structure SearchHit where
  pull_request_url : String
  html_url : String
  deriving DecidableEq

structure PullRequestDetail where
  html_url : String
  created_at : Timestamp
  merged_at : Option Timestamp
  links : Option String
  deriving DecidableEq

structure ChangedFile where
  filename : String
  changes : Nat
  deriving DecidableEq

structure Review where
  state : String
  deriving DecidableEq

/-- Outcomes of `make_api_request` (with the JSON already decoded) for the
    three secondary endpoints, keyed by the request URL: `none` models a
    request that failed after the retry budget, `some` a 200 response. -/
structure Server where
  prDetail : String → Option PullRequestDetail
  prFiles : String → Option (List ChangedFile)
  prReviews : String → Option (List Review)

/-! ## Detail enricher -/

/-- `fetch_full_pr_details(pr)`: fetch the Pulls-API record behind a search
    hit and keep it only when `merged_at` is set. -/
def fetch_full_pr_details (srv : Server) (pr : SearchHit) : Option PullRequestDetail :=
  match srv.prDetail pr.pull_request_url with
  | some pr_details =>
      if pr_details.merged_at.isSome then some pr_details else none
  | none => none

/-- `fetch_files_for_pr(pr)`: changed files via the `_links.self.href`
    self-link; missing links or a failed request degrade to `[]`. -/
def fetch_files_for_pr (srv : Server) (pr : Option PullRequestDetail) : List ChangedFile :=
  match pr with
  | none => []
  | some pr =>
      match pr.links with
      | none => []
      | some href => (srv.prFiles (href ++ "/files")).getD []

/-- `check_merged_without_approval(pr)`: 1 when merged without approval,
    0 otherwise; defaults to 1 whenever the reviews cannot be fetched. -/
def check_merged_without_approval (srv : Server) (pr : Option PullRequestDetail) : Nat :=
  match pr with
  | none => 1
  | some pr =>
      match pr.links with
      | none => 1
      | some href =>
          match srv.prReviews (href ++ "/reviews") with
          | some reviews =>
              if reviews.any (fun review => pyLower review.state == "approved") then 0 else 1
          | none => 1

/-! ## Metrics calculator -/

def isAutogenerated (f : ChangedFile) : Bool :=
  pyEndsWith f.filename ".lock" || pyEndsWith f.filename ".json" || pyEndsWith f.filename ".md"

def non_autogenerated_files (files : List ChangedFile) : List ChangedFile :=
  files.filter (fun f => !isAutogenerated f)

/-- Body of the per-PR branch of `count_changes_and_lines`: the pair
    `(file_count, total_lines_changed)`, with the `if pr and files` guard
    (an empty file list short-circuits to `(0, 0)`). -/
def changes_and_lines_of (files : List ChangedFile) : Nat × Nat :=
  match files with
  | [] => (0, 0)
  | _ =>
      ((non_autogenerated_files files).length,
       ((non_autogenerated_files files).map (fun f => f.changes)).sum)

/-- `count_changes_and_lines(prs)`: enrich every search hit, keep the merged
    ones, fetch their files and compute each pair positionally. -/
def count_changes_and_lines (srv : Server) (prs : List SearchHit) :
    List (Nat × Nat) × List PullRequestDetail :=
  let full_pr_details := (prs.map (fetch_full_pr_details srv)).filterMap id
  let file_results := full_pr_details.map (fun pr => fetch_files_for_pr srv (some pr))
  let changes_and_lines :=
    (full_pr_details.zip file_results).map (fun x => changes_and_lines_of x.2)
  (changes_and_lines, full_pr_details)

/-- `calculate_merge_time(pr)`: `math.ceil` of the merge latency in hours
    (exact rational arithmetic stands in for the float division). -/
def calculate_merge_time (pr : PullRequestDetail) : Int :=
  match pr.merged_at with
  | some merged =>
      ⌈((((merged.toSeconds : Int) - (pr.created_at.toSeconds : Int) : Int) : ℚ) / 3600)⌉
  | none => 0

/-! ## Report assembler -/

structure ReportRow where
  pr_url : String
  pr_created_date : Nat × Nat × Nat
  merge_time_hours : Int
  merged_without_approval : Nat
  non_autogenerated_changes : Nat
  lines_of_code_changed : Nat
  deriving DecidableEq

def zip4 {α β γ δ : Type} : List α → List β → List γ → List δ → List (α × β × γ × δ)
  | a :: la, b :: lb, c :: lc, d :: ld => (a, b, c, d) :: zip4 la lb lc ld
  | _, _, _, _ => []

/-- One dictionary appended to `report_data` (the created date keeps only
    the `%Y-%m-%d` part of `created_at`). -/
def mkReportRow (pr : PullRequestDetail) (changes : Nat × Nat) (merge_time : Int)
    (no_approval : Nat) : ReportRow :=
  { pr_url := pr.html_url
    pr_created_date := (pr.created_at.year, pr.created_at.month, pr.created_at.day)
    merge_time_hours := merge_time
    merged_without_approval := no_approval
    non_autogenerated_changes := changes.1
    lines_of_code_changed := changes.2 }

/-- `generate_report(username, months)` after the search step: `prs` is the
    hit list returned by `fetch_user_prs`; `none` models `return None`. -/
def generate_report (srv : Server) (prs : List SearchHit) : Option (List ReportRow) :=
  if prs.isEmpty then none
  else
    let res := count_changes_and_lines srv prs
    let changes_and_lines := res.1
    let full_pr_details := res.2
    let merge_times := full_pr_details.map calculate_merge_time
    let merged_without_approvals :=
      full_pr_details.map (fun pr => check_merged_without_approval srv (some pr))
    some ((zip4 full_pr_details changes_and_lines merge_times merged_without_approvals).map
      (fun x => mkReportRow x.1 x.2.1 x.2.2.1 x.2.2.2))

/-- `generate_reports_for_users`: the users for which a CSV file is saved
    (exactly those whose report is not `None`). -/
def generate_reports_for_users (search : String → List SearchHit) (srv : Server)
    (usernames : List String) : List String :=
  usernames.filter (fun username => (generate_report srv (search username)).isSome)

/-! ## Paginated search fetcher (fetch_user_prs) -/

/-- Start-date selection of `fetch_user_prs`, at day granularity:
    `todayOrd` is `datetime.now().toordinal()`.  `months = None` or
    `months = some 0` are falsy in `if months:`. -/
def monthsTruthy : Option Nat → Bool
  | none => false
  | some m => m != 0

def start_date_ordinal (todayOrd currentYear : Nat) (months : Option Nat) : Nat :=
  if monthsTruthy months then todayOrd - (months.getD 0) * 30
  else dateToOrdinal currentYear 1 1

def ORG_NAME : String := "<GITHUB ORGANIZATION>"

def base_url (username start_date : String) : String :=
  "https://api.github.com/search/issues?q=author:" ++ username ++ "+org:" ++ ORG_NAME
    ++ "+type:pr+created:>=" ++ start_date

/-- A search-endpoint 200 response: the decoded `items` plus the raw value
    of the `Link` header when the response carries one. -/
structure SearchResponse where
  items : List SearchHit
  linkHeader : Option String

/-- Python `s.strip("<>")`. -/
def stripAngles (s : String) : String :=
  let keep := fun c => c ≠ '<' ∧ c ≠ '>'
  String.mk (((s.toList.dropWhile (fun c => !decide (keep c))).reverse.dropWhile
    (fun c => !decide (keep c))).reverse)

/-- The `Link`-header scan of `fetch_user_prs`: split on `", "`, and for
    every entry containing `rel="next"` take `entry.split("; ")[0].strip("<>")`
    (the last match wins, as in the Python loop). -/
def parseNextLink (header : String) : Option String :=
  (pySplit header ", ").foldl
    (fun url link =>
      if containsSubstring link "rel=\"next\"" then
        some (stripAngles ((pySplit link "; ").headD ""))
      else url)
    none

def nextUrlOf (resp : SearchResponse) : Option String :=
  match resp.linkHeader with
  | none => none
  | some header => parseNextLink header

/-- The `while url:` pagination loop of `fetch_user_prs`, instrumented with
    a step bound: `searchSrv url` is the `make_api_request` outcome for
    `url`; the result is `none` exactly when the loop is still running after
    `fuel` iterations, and `some prs` when it exited on its own. -/
def fetch_user_prs_loop (searchSrv : String → Option SearchResponse) :
    Nat → Option String → List SearchHit → Option (List SearchHit)
  | 0, _, _ => none
  | _ + 1, none, prs => some prs
  | fuel + 1, some url, prs =>
      match searchSrv url with
      | some resp => fetch_user_prs_loop searchSrv fuel (nextUrlOf resp) (prs ++ resp.items)
      | none => some prs

/-- `fetch_user_prs(username, months)` against a search server, bounded by
    `fuel` loop iterations. -/
def fetch_user_prs (searchSrv : String → Option SearchResponse) (fuel : Nat)
    (username start_date : String) : Option (List SearchHit) :=
  fetch_user_prs_loop searchSrv fuel (some (base_url username start_date)) []

/-- A server that answers every search URL with an empty page whose `Link`
    header advertises the same URL as `rel="next"`. -/
def selfLinkServer : String → Option SearchResponse :=
  fun url => some { items := [], linkHeader := some ("<" ++ url ++ ">; rel=\"next\"") }

/-! ## Derived notions used in the statements -/

/-- The filtered merged-detail list
    `[pr for pr in executor.map(fetch_full_pr_details, prs) if pr is not None]`. -/
def survivors (srv : Server) (prs : List SearchHit) : List PullRequestDetail :=
  (prs.map (fetch_full_pr_details srv)).filterMap id

/-- The report row that `generate_report` assembles for one merged detail. -/
def rowOf (srv : Server) (pr : PullRequestDetail) : ReportRow :=
  mkReportRow pr (changes_and_lines_of (fetch_files_for_pr srv (some pr)))
    (calculate_merge_time pr) (check_merged_without_approval srv (some pr))

def noTimestamp : Timestamp := ⟨1, 1, 1, 0, 0, 0⟩

def noPR : PullRequestDetail :=
  { html_url := "", created_at := noTimestamp, merged_at := none, links := none }

def noRow : ReportRow := mkReportRow noPR (0, 0) 0 1

/-! ## Concrete scenario used by the witnesses: one merged and one open PR -/

def tsCreatedA : Timestamp := ⟨2025, 1, 1, 0, 0, 0⟩

def tsMergedA : Timestamp := ⟨2025, 1, 1, 1, 30, 0⟩

def tsMergedB : Timestamp := ⟨2025, 1, 2, 0, 0, 0⟩

def prDetailMerged : PullRequestDetail :=
  { html_url := "https://example.com/org/repo/pull/1"
    created_at := tsCreatedA
    merged_at := some tsMergedA
    links := some "https://api.example.com/repos/org/repo/pulls/1" }

def prDetailOpen : PullRequestDetail :=
  { html_url := "https://example.com/org/repo/pull/2"
    created_at := tsCreatedA
    merged_at := none
    links := some "https://api.example.com/repos/org/repo/pulls/2" }

def prDetailMergedLater : PullRequestDetail :=
  { prDetailMerged with merged_at := some tsMergedB }

def hitMerged : SearchHit :=
  ⟨"https://api.example.com/repos/org/repo/pulls/1", "https://example.com/org/repo/pull/1"⟩

def hitOpen : SearchHit :=
  ⟨"https://api.example.com/repos/org/repo/pulls/2", "https://example.com/org/repo/pull/2"⟩

def demoServer : Server :=
  { prDetail := fun url =>
      if url = "https://api.example.com/repos/org/repo/pulls/1" then some prDetailMerged
      else if url = "https://api.example.com/repos/org/repo/pulls/2" then some prDetailOpen
      else none
    prFiles := fun _ => some [⟨"src/main.py", 10⟩, ⟨"package.json", 5⟩]
    prReviews := fun _ => some [⟨"APPROVED"⟩] }

def server500 : Nat → HttpResponse := fun _ => ⟨500, "Internal Server Error"⟩

/-! ## Helper lemmas -/

theorem getD_map_of_lt {α β : Type} (f : α → β) (xs : List α) (i : Nat) (da : α) (db : β)
    (h : i < xs.length) : (xs.map f).getD i db = f (xs.getD i da) := by
  induction xs generalizing i with
  | nil => simp at h
  | cons x xs ih =>
      cases i with
      | zero => rfl
      | succ i => exact ih i (Nat.lt_of_succ_lt_succ h)

theorem getD_mem_of_lt {α : Type} (xs : List α) (i : Nat) (d : α)
    (h : i < xs.length) : xs.getD i d ∈ xs := by
  induction xs generalizing i with
  | nil => simp at h
  | cons x xs ih =>
      cases i with
      | zero => exact List.mem_cons_self x xs
      | succ i => exact List.mem_cons_of_mem x (ih i (Nat.lt_of_succ_lt_succ h))

theorem zip_self_map {α β γ : Type} (xs : List α) (f : α → β) (g : β → γ) :
    ((xs.zip (xs.map f)).map fun x => g x.2) = xs.map fun x => g (f x) := by
  induction xs with
  | nil => rfl
  | cons x xs ih => simpa using ih

theorem zip4_self_maps {α β γ δ : Type} (xs : List α) (f : α → β) (g : α → γ) (h : α → δ) :
    zip4 xs (xs.map f) (xs.map g) (xs.map h) = xs.map fun x => (x, f x, g x, h x) := by
  induction xs with
  | nil => rfl
  | cons x xs ih => simp [zip4, ih]

/-- The retry loop makes one attempt per remaining retry when the server
    never answers 200, and ends with `None`. -/
theorem make_api_request_loop_no200 (server : Nat → HttpResponse)
    (hs : ∀ k, (server k).status ≠ 200) :
    ∀ d retries attempts, retries + d = MAX_RETRIES →
      make_api_request_loop server retries attempts = (none, attempts + d) := by
  intro d
  induction d with
  | zero =>
      intro retries attempts hr
      rw [make_api_request_loop, dif_neg (by omega)]
      rfl
  | succ d ih =>
      intro retries attempts hr
      have hrec : make_api_request_loop server (retries + 1) (attempts + 1) =
          (none, attempts + 1 + d) := ih (retries + 1) (attempts + 1) (by omega)
      rw [make_api_request_loop, dif_pos (by omega)]
      simp only [if_neg (hs attempts)]
      by_cases hb :
          (decide ((server attempts).status = 403) && isSecondaryRateLimit (server attempts).body) = true
      · rw [if_pos hb, hrec]
        refine congrArg _ (by omega)
      · rw [if_neg hb]
        cases d with
        | zero =>
            rw [if_neg (by omega : ¬ retries < MAX_RETRIES - 1)]
        | succ e =>
            rw [if_pos (by omega : retries < MAX_RETRIES - 1), hrec]
            refine congrArg _ (by omega)

/-- `count_changes_and_lines` in closed form: the pair list is the image of
    the filtered merged-detail list, position by position. -/
theorem count_changes_eq (srv : Server) (prs : List SearchHit) :
    count_changes_and_lines srv prs =
      ((survivors srv prs).map fun pr =>
        changes_and_lines_of (fetch_files_for_pr srv (some pr)),
       survivors srv prs) := by
  simp only [count_changes_and_lines, survivors]
  rw [zip_self_map]

/-- `generate_report` in closed form on a non-empty hit list. -/
theorem generate_report_eq (srv : Server) (prs : List SearchHit) (h : prs ≠ []) :
    generate_report srv prs = some ((survivors srv prs).map (rowOf srv)) := by
  rw [generate_report, if_neg (by simp [h])]
  rw [count_changes_eq]
  simp only
  rw [zip4_self_maps, List.map_map]
  rfl

/-- Every entry of the filtered merged-detail list has `merged_at` set. -/
theorem survivors_merged (srv : Server) (prs : List SearchHit) (pr : PullRequestDetail)
    (hm : pr ∈ survivors srv prs) : pr.merged_at.isSome = true := by
  rw [survivors, List.mem_filterMap] at hm
  obtain ⟨opr, hmem, hid⟩ := hm
  rw [List.mem_map] at hmem
  obtain ⟨hit, -, hfetch⟩ := hmem
  subst hfetch
  simp only [id_eq] at hid
  unfold fetch_full_pr_details at hid
  split at hid
  · split at hid
    · next hms => exact (Option.some.inj hid) ▸ hms
    · exact Option.noConfusion hid
  · exact Option.noConfusion hid

/-- A non-empty filtered merged-detail list comes from a non-empty search. -/
theorem survivors_ne_nil_source (srv : Server) (prs : List SearchHit)
    (h : survivors srv prs ≠ []) : prs ≠ [] := by
  intro he
  subst he
  exact h rfl

/-! ## Claim theorems -/

set_option maxRecDepth 16000 in
/-- C1: against a server that always answers with a `rel="next"` link
    pointing back to the requested page, the pagination loop of
    `fetch_user_prs` is still running after any number of iterations: the
    code has no page ceiling, so the required termination property fails. -/
theorem fetch_user_prs_self_link_never_terminates :
    ∀ fuel : Nat, fetch_user_prs selfLinkServer fuel "octocat" "2025-01-01" = none := by
  have hnext :
      parseNextLink ("<" ++ base_url "octocat" "2025-01-01" ++ ">; rel=\"next\"") =
        some (base_url "octocat" "2025-01-01") := by decide
  intro fuel
  show fetch_user_prs_loop selfLinkServer fuel (some (base_url "octocat" "2025-01-01")) [] = none
  induction fuel with
  | zero => rfl
  | succ f ih =>
      have hstep :
          fetch_user_prs_loop selfLinkServer (f + 1)
              (some (base_url "octocat" "2025-01-01")) [] =
            fetch_user_prs_loop selfLinkServer f
              (parseNextLink ("<" ++ base_url "octocat" "2025-01-01" ++ ">; rel=\"next\"")) [] :=
        rfl
      rw [hstep, hnext]
      exact ih

/-- C2: whenever the server never answers 200 (all-500, all-rate-limited,
    or any mix), `make_api_request` issues exactly 5 HTTP attempts and then
    returns the terminal failure `none` instead of raising. -/
theorem make_api_request_exactly_five_attempts (server : Nat → HttpResponse)
    (hs : ∀ k, (server k).status ≠ 200) :
    make_api_request server = (none, 5) := by
  have h := make_api_request_loop_no200 server hs MAX_RETRIES 0 0 (by omega)
  rw [make_api_request, h]
  rfl

theorem make_api_request_exactly_five_attempts_witness :
    (∀ k, (server500 k).status ≠ 200) ∧ make_api_request server500 = (none, 5) :=
  ⟨by intro k; exact (by omega : (500 : Nat) ≠ 200),
   make_api_request_exactly_five_attempts server500
     (by intro k; exact (by omega : (500 : Nat) ≠ 200))⟩

/-- C3: on a merged pull request, `calculate_merge_time` is the ceiling of
    the merge latency in hours; a 1-minute merge yields 1, and creation
    2025-01-01T00:00:00Z with merge 2025-01-01T01:30:00Z yields 2. -/
theorem calculate_merge_time_is_ceil (pr : PullRequestDetail) (merged : Timestamp)
    (hm : pr.merged_at = some merged) :
    calculate_merge_time pr =
      ⌈((((merged.toSeconds : Int) - (pr.created_at.toSeconds : Int) : Int) : ℚ) / 3600)⌉ ∧
    (merged.toSeconds = pr.created_at.toSeconds + 60 → calculate_merge_time pr = 1) ∧
    (pr.created_at = ⟨2025, 1, 1, 0, 0, 0⟩ → merged = ⟨2025, 1, 1, 1, 30, 0⟩ →
      calculate_merge_time pr = 2) := by
  have hdef : calculate_merge_time pr =
      ⌈((((merged.toSeconds : Int) - (pr.created_at.toSeconds : Int) : Int) : ℚ) / 3600)⌉ := by
    rw [calculate_merge_time, hm]
  refine ⟨hdef, ?_, ?_⟩
  · intro h60
    have hd : ((merged.toSeconds : Int) - (pr.created_at.toSeconds : Int)) = 60 := by omega
    rw [hdef, hd]
    rw [Int.ceil_eq_iff]
    constructor
    · push_cast
      norm_num
    · push_cast
      norm_num
  · intro hc hmg
    subst hmg
    have hd : (((⟨2025, 1, 1, 1, 30, 0⟩ : Timestamp).toSeconds : Int)
        - (pr.created_at.toSeconds : Int)) = 5400 := by
      rw [hc]
      decide
    rw [hdef, hd]
    rw [Int.ceil_eq_iff]
    constructor
    · push_cast
      norm_num
    · push_cast
      norm_num

theorem calculate_merge_time_is_ceil_witness :
    prDetailMerged.merged_at = some tsMergedA ∧ calculate_merge_time prDetailMerged = 2 :=
  ⟨rfl, (calculate_merge_time_is_ceil prDetailMerged tsMergedA rfl).2.2 rfl rfl⟩

/-- C4: with identical creation timestamps, a pull request merged at an
    earlier instant never reports a larger merge time than one merged at a
    later instant. -/
theorem calculate_merge_time_monotone (pr1 pr2 : PullRequestDetail) (m1 m2 : Timestamp)
    (hc : pr1.created_at = pr2.created_at)
    (h1 : pr1.merged_at = some m1) (h2 : pr2.merged_at = some m2)
    (hle : m1.toSeconds ≤ m2.toSeconds) :
    calculate_merge_time pr1 ≤ calculate_merge_time pr2 := by
  rw [calculate_merge_time, h1, calculate_merge_time, h2, hc]
  apply Int.ceil_le_ceil
  rw [div_le_div_iff_of_pos_right (by norm_num : (0 : ℚ) < 3600)]
  have hq : (m1.toSeconds : ℚ) ≤ (m2.toSeconds : ℚ) := by exact_mod_cast hle
  push_cast
  linarith

theorem calculate_merge_time_monotone_witness :
    tsMergedA.toSeconds ≤ tsMergedB.toSeconds ∧
    calculate_merge_time prDetailMerged ≤ calculate_merge_time prDetailMergedLater :=
  ⟨by decide,
   calculate_merge_time_monotone prDetailMerged prDetailMergedLater tsMergedA tsMergedB
     rfl rfl rfl (by decide)⟩

/-- C5: the per-PR pair of `count_changes_and_lines` counts and sums exactly
    the changed files whose name does not end in ".lock", ".json" or ".md":
    inserting such a file anywhere changes neither component, while
    inserting "x.py" with `c` changes adds 1 to the count and `c` to the
    sum. -/
theorem count_changes_filter_spec (srv : Server) (prs : List SearchHit)
    (files l r : List ChangedFile) (c : Nat) :
    (count_changes_and_lines srv prs).1 =
      (survivors srv prs).map (fun pr =>
        changes_and_lines_of (fetch_files_for_pr srv (some pr))) ∧
    changes_and_lines_of files =
      ((files.filter fun f => !(pyEndsWith f.filename ".lock" || pyEndsWith f.filename ".json"
          || pyEndsWith f.filename ".md")).length,
       ((files.filter fun f => !(pyEndsWith f.filename ".lock" || pyEndsWith f.filename ".json"
          || pyEndsWith f.filename ".md")).map fun f => f.changes).sum) ∧
    changes_and_lines_of (l ++ ⟨"x.lock", c⟩ :: r) = changes_and_lines_of (l ++ r) ∧
    changes_and_lines_of (l ++ ⟨"x.json", c⟩ :: r) = changes_and_lines_of (l ++ r) ∧
    changes_and_lines_of (l ++ ⟨"x.md", c⟩ :: r) = changes_and_lines_of (l ++ r) ∧
    (changes_and_lines_of (l ++ ⟨"x.py", c⟩ :: r)).1 = (changes_and_lines_of (l ++ r)).1 + 1 ∧
    (changes_and_lines_of (l ++ ⟨"x.py", c⟩ :: r)).2 = (changes_and_lines_of (l ++ r)).2 + c := by
  have hform : ∀ fs : List ChangedFile,
      changes_and_lines_of fs =
        ((fs.filter fun f => !isAutogenerated f).length,
         ((fs.filter fun f => !isAutogenerated f).map fun f => f.changes).sum) := by
    intro fs
    cases fs <;> rfl
  have hlock : isAutogenerated ⟨"x.lock", c⟩ = true :=
    (by decide :
      (pyEndsWith "x.lock" ".lock" || pyEndsWith "x.lock" ".json"
        || pyEndsWith "x.lock" ".md") = true)
  have hjson : isAutogenerated ⟨"x.json", c⟩ = true :=
    (by decide :
      (pyEndsWith "x.json" ".lock" || pyEndsWith "x.json" ".json"
        || pyEndsWith "x.json" ".md") = true)
  have hmd : isAutogenerated ⟨"x.md", c⟩ = true :=
    (by decide :
      (pyEndsWith "x.md" ".lock" || pyEndsWith "x.md" ".json"
        || pyEndsWith "x.md" ".md") = true)
  have hpy : isAutogenerated ⟨"x.py", c⟩ = false :=
    (by decide :
      (pyEndsWith "x.py" ".lock" || pyEndsWith "x.py" ".json"
        || pyEndsWith "x.py" ".md") = false)
  refine ⟨by rw [count_changes_eq], by cases files <;> rfl, ?_, ?_, ?_, ?_, ?_⟩
  · rw [hform, hform]
    simp [List.filter_append, List.filter_cons, hlock]
  · rw [hform, hform]
    simp [List.filter_append, List.filter_cons, hjson]
  · rw [hform, hform]
    simp [List.filter_append, List.filter_cons, hmd]
  · rw [hform, hform]
    simp [List.filter_append, List.filter_cons, hpy]
    omega
  · rw [hform, hform]
    simp [List.filter_append, List.filter_cons, hpy]
    omega

/-- C6: `check_merged_without_approval` returns 0 exactly when some fetched
    review has state "approved" under case-insensitive comparison; it
    returns 1 on an empty review list and 1 (fail-closed) whenever the
    reviews are unavailable: a missing detail, missing self-links, or a
    failed reviews request. -/
theorem check_merged_without_approval_spec (srv : Server) (pr : PullRequestDetail)
    (href : String) (reviews : List Review) :
    check_merged_without_approval srv none = 1 ∧
    (pr.links = none → check_merged_without_approval srv (some pr) = 1) ∧
    (pr.links = some href → srv.prReviews (href ++ "/reviews") = none →
      check_merged_without_approval srv (some pr) = 1) ∧
    (pr.links = some href → srv.prReviews (href ++ "/reviews") = some reviews →
      (check_merged_without_approval srv (some pr) = 0 ↔
        ∃ review ∈ reviews, pyLower review.state = pyLower "approved")) ∧
    (pr.links = some href → srv.prReviews (href ++ "/reviews") = some [] →
      check_merged_without_approval srv (some pr) = 1) := by
  refine ⟨rfl, ?_, ?_, ?_, ?_⟩
  · intro h
    simp [check_merged_without_approval, h]
  · intro h1 h2
    simp [check_merged_without_approval, h1, h2]
  · intro h1 h2
    have happ : pyLower "approved" = "approved" := by decide
    rw [happ]
    simp only [check_merged_without_approval, h1, h2]
    by_cases ha : reviews.any (fun review => pyLower review.state == "approved") = true
    · rw [if_pos ha]
      simp only [List.any_eq_true, beq_iff_eq] at ha
      exact ⟨fun _ => ha, fun _ => rfl⟩
    · rw [if_neg ha]
      simp only [List.any_eq_true, beq_iff_eq] at ha
      constructor
      · intro h10
        exact absurd h10 (by omega)
      · intro hex
        exact absurd hex ha
  · intro h1 h2
    simp [check_merged_without_approval, h1, h2]

theorem check_merged_without_approval_spec_witness :
    check_merged_without_approval demoServer (some prDetailMerged) = 0 ∧
    check_merged_without_approval demoServer none = 1 := by
  have T := check_merged_without_approval_spec demoServer prDetailMerged
    "https://api.example.com/repos/org/repo/pulls/1" [⟨"APPROVED"⟩]
  refine ⟨(T.2.2.2.1 rfl rfl).mpr ⟨⟨"APPROVED"⟩, ?_, ?_⟩, T.1⟩
  · exact List.mem_singleton.mpr rfl
  · decide

/-- C7: the generated report has exactly one row per surviving merged pull
    request, each row showing that pull request's URL, and no row for a
    detail without a merge timestamp. -/
theorem report_one_row_per_merged_pr (srv : Server) (prs : List SearchHit)
    (rows : List ReportRow) (h : generate_report srv prs = some rows) :
    rows.length = (survivors srv prs).length ∧
    ∀ i : Nat, i < rows.length →
      (rows.getD i noRow).pr_url = ((survivors srv prs).getD i noPR).html_url ∧
      ((survivors srv prs).getD i noPR).merged_at.isSome = true := by
  have hne : prs ≠ [] := by
    intro he
    subst he
    simp [generate_report] at h
  rw [generate_report_eq srv prs hne, Option.some.injEq] at h
  subst h
  refine ⟨List.length_map _ _, ?_⟩
  intro i hi
  rw [List.length_map] at hi
  constructor
  · rw [getD_map_of_lt (rowOf srv) _ i noPR noRow hi]
    rfl
  · exact survivors_merged srv prs _ (getD_mem_of_lt _ i noPR hi)

theorem report_one_row_per_merged_pr_witness :
    generate_report demoServer [hitMerged, hitOpen] =
      some ((survivors demoServer [hitMerged, hitOpen]).map (rowOf demoServer)) ∧
    survivors demoServer [hitMerged, hitOpen] = [prDetailMerged] ∧
    ((survivors demoServer [hitMerged, hitOpen]).map (rowOf demoServer)).length = 1 ∧
    (((survivors demoServer [hitMerged, hitOpen]).map (rowOf demoServer)).getD 0 noRow).pr_url =
      prDetailMerged.html_url := by
  have hgen : generate_report demoServer [hitMerged, hitOpen] =
      some ((survivors demoServer [hitMerged, hitOpen]).map (rowOf demoServer)) :=
    generate_report_eq demoServer [hitMerged, hitOpen] (by simp)
  have T := report_one_row_per_merged_pr demoServer [hitMerged, hitOpen]
    ((survivors demoServer [hitMerged, hitOpen]).map (rowOf demoServer)) hgen
  have hsur : survivors demoServer [hitMerged, hitOpen] = [prDetailMerged] := rfl
  refine ⟨hgen, hsur, ?_, ?_⟩
  · rw [T.1, hsur]
    rfl
  · have hrow := (T.2 0 (by rw [T.1, hsur]; decide)).1
    rw [hrow, hsur]
    rfl

/-- C9: output positions correspond to input positions: the pair at
    position i of `count_changes_and_lines` is computed from the files
    fetched for the detail at position i of the filtered merged-detail
    list, and row i of the report is assembled from that same detail. -/
theorem positional_correspondence (srv : Server) (prs : List SearchHit) (i : Nat)
    (h : i < (survivors srv prs).length) :
    (count_changes_and_lines srv prs).2 = survivors srv prs ∧
    (count_changes_and_lines srv prs).1.getD i (0, 0) =
      changes_and_lines_of (fetch_files_for_pr srv (some ((survivors srv prs).getD i noPR))) ∧
    ∀ rows, generate_report srv prs = some rows →
      rows.getD i noRow = rowOf srv ((survivors srv prs).getD i noPR) := by
  refine ⟨by rw [count_changes_eq], ?_, ?_⟩
  · rw [count_changes_eq]
    exact getD_map_of_lt _ _ i noPR (0, 0) h
  · intro rows hr
    have hne : prs ≠ [] := by
      refine survivors_ne_nil_source srv prs ?_
      intro he
      rw [he] at h
      simp at h
    rw [generate_report_eq srv prs hne, Option.some.injEq] at hr
    subst hr
    exact getD_map_of_lt (rowOf srv) _ i noPR noRow h

theorem positional_correspondence_witness :
    0 < (survivors demoServer [hitMerged, hitOpen]).length ∧
    (count_changes_and_lines demoServer [hitMerged, hitOpen]).1.getD 0 (0, 0) =
      changes_and_lines_of (fetch_files_for_pr demoServer (some prDetailMerged)) := by
  have h0 : 0 < (survivors demoServer [hitMerged, hitOpen]).length :=
    (by decide : 0 < ([prDetailMerged] : List PullRequestDetail).length)
  have T := positional_correspondence demoServer [hitMerged, hitOpen] 0 h0
  have hsur0 : (survivors demoServer [hitMerged, hitOpen]).getD 0 noPR = prDetailMerged := rfl
  rw [hsur0] at T
  exact ⟨h0, T.2.1⟩

/-- C10: `generate_report` returns a table (possibly with zero rows) for
    every non-empty hit list — in particular an empty table, not `None`,
    when no hit survives the merged filter — and returns `None` exactly on
    an empty hit list, so `generate_reports_for_users` writes a file for a
    user precisely when that user's search returned at least one hit. -/
theorem report_empty_table_not_none (search : String → List SearchHit) (srv : Server)
    (prs : List SearchHit) (usernames : List String) (u : String) :
    ((generate_report srv prs).isSome ↔ prs ≠ []) ∧
    (prs ≠ [] → survivors srv prs = [] → generate_report srv prs = some []) ∧
    (u ∈ usernames →
      (u ∈ generate_reports_for_users search srv usernames ↔ search u ≠ [])) := by
  have hiff : ∀ ps : List SearchHit, ((generate_report srv ps).isSome ↔ ps ≠ []) := by
    intro ps
    constructor
    · intro hs he
      subst he
      simp [generate_report] at hs
    · intro hne
      rw [generate_report_eq srv ps hne]
      rfl
  refine ⟨hiff prs, ?_, ?_⟩
  · intro hne hsur
    rw [generate_report_eq srv prs hne, hsur]
    rfl
  · intro hu
    rw [generate_reports_for_users, List.mem_filter]
    constructor
    · intro hmem
      exact (hiff (search u)).mp (by simpa using hmem.2)
    · intro hne
      exact ⟨hu, by simpa using (hiff (search u)).mpr hne⟩

theorem report_empty_table_not_none_witness :
    ([hitOpen] : List SearchHit) ≠ [] ∧
    survivors demoServer [hitOpen] = [] ∧
    generate_report demoServer [hitOpen] = some [] ∧
    ("alice" ∈ generate_reports_for_users (fun v => if v = "alice" then [hitOpen] else [])
        demoServer ["alice"] ↔
      (fun v => if v = "alice" then [hitOpen] else []) "alice" ≠ []) := by
  have T := report_empty_table_not_none (fun v => if v = "alice" then [hitOpen] else [])
    demoServer [hitOpen] ["alice"] "alice"
  exact ⟨by simp, rfl, T.2.1 (by simp) rfl, T.2.2 (by simp)⟩

/-- C8 counterexample: a months window of 0 is provided yet, being falsy in
    `if months:`, selects the January-1 branch: on 2025-06-15 the computed
    start date is not `now - 0 * 30 days`. -/
theorem start_date_zero_months_counterexample :
    start_date_ordinal (dateToOrdinal 2025 6 15) 2025 (some 0) ≠
      dateToOrdinal 2025 6 15 - 0 * 30 := by decide

/-- C8 amended: the start date is `now - months*30 days` when a nonzero
    months window is provided, and January 1 of the current year when the
    window is absent or zero. -/
theorem start_date_spec (todayOrd currentYear m : Nat) (months : Option Nat) :
    (months = some m → m ≠ 0 →
      start_date_ordinal todayOrd currentYear months = todayOrd - m * 30) ∧
    (months = none →
      start_date_ordinal todayOrd currentYear months = dateToOrdinal currentYear 1 1) ∧
    (months = some 0 →
      start_date_ordinal todayOrd currentYear months = dateToOrdinal currentYear 1 1) := by
  refine ⟨?_, ?_, ?_⟩
  · intro hm hz
    subst hm
    simp [start_date_ordinal, monthsTruthy, hz]
  · intro hm
    subst hm
    simp [start_date_ordinal, monthsTruthy]
  · intro hm
    subst hm
    simp [start_date_ordinal, monthsTruthy]

theorem start_date_spec_witness :
    start_date_ordinal (dateToOrdinal 2025 6 15) 2025 (some 3) =
      dateToOrdinal 2025 6 15 - 3 * 30 ∧
    start_date_ordinal (dateToOrdinal 2025 6 15) 2025 none = dateToOrdinal 2025 1 1 :=
  ⟨(start_date_spec (dateToOrdinal 2025 6 15) 2025 3 (some 3)).1 rfl (by omega),
   (start_date_spec (dateToOrdinal 2025 6 15) 2025 3 none).2.1 rfl⟩

end Report
